import Mathlib

/-!
# falcon-hosts-counter: the poll loop and its watermark

A shallow embedding of `main.go`.  The program polls a device inventory
endpoint forever, keeps the highest device count seen so far in the
variable `maxDevices`, and logs one line per cycle.

The Go standard library and the network are not part of the repository.
They enter the embedding as parameters:

* `Lib` holds the library functions the program calls (`url.Parse`,
  `http.NewRequestWithContext`, `json.Unmarshal` into the `resbody`
  structure, and the `%q` verb of `fmt`);
* a `Transport` is what `client.Do` answers during one cycle; a finite list
  of them is a finite beginning of the endless run.

`maxDevices` is a Go `int`.  It is embedded as an unbounded `Int`: the only
arithmetic on it is `maxDevices - len(resbody.Resources)` on line 92, taken
when `0 ≤ len < maxDevices`, so the difference lies in `(0, maxDevices]` and
cannot wrap (see `watermark_deficit_range`).
-/

namespace FalconHosts

/-! ## Data -/

/-- The bytes of a response body (`[]byte`). -/
abbrev Body := List UInt8

/-- An outgoing request: method, URL and the `Header.Add` calls made on it,
in order, with the keys as written in the source. -/
structure Request where
  method : String
  url : String
  header : List (String × String)
deriving DecidableEq, Repr

/-- What `client.Do` hands back on success: the status line, the status code
and the result of `io.ReadAll(res.Body)`. -/
structure Response where
  Status : String
  StatusCode : Int
  Body : Except String Body

/-- The answer of `client.Do(req)` during one cycle; an error is carried as
its message. -/
abbrev Transport := Request → Except String Response

/-- The library functions used by `main.go`. -/
structure Lib where
  /-- Outcome of `url.Parse(s)`; the parsed value itself is discarded by
  `main`. -/
  Parse : String → Except String Unit
  /-- Outcome of `http.NewRequestWithContext(ctx, method, url, nil)`. -/
  NewRequestWithContext : String → String → Except String Request
  /-- Outcome of `json.Unmarshal(body, &resbody)`: the `Resources` field. -/
  Unmarshal : Body → Except String (List String)
  /-- The `%q` rendering of a byte slice. -/
  Quote : Body → String

/-- The command-line flags (lines 19-25) with their defaults. -/
structure Flags where
  clientID : String := ""
  clientSecret : String := ""
  apiBase : String := "https://api.us-2.crowdstrike.com"
  interval : Int := 60000000000
  quiet : Bool := false

/-- The errors `attempt` returns, one constructor per `return` statement that
returns a non-nil error (lines 71, 77, 81, 88, 92, 96), with the arguments of
the format string. -/
inductive AttemptError where
  | transport (err : String)
  | readingBody (err : String)
  | unexpectedStatus (status : String) (body : Body)
  | unmarshalling (err : String) (body : Body)
  | missing (deficit : Int) (body : Body)
  | newMax (maxDevices : Int) (body : Body)
deriving DecidableEq

/-- The message of an error of `attempt`: the format strings of lines 77, 81,
88, 92 and 96 (`%w` and `%s` print the text, `%d` the decimal integer, `%q`
the quoted body). -/
def AttemptError.Error (q : Body → String) : AttemptError → String
  | .transport err => err
  | .readingBody err => "reading body: " ++ err
  | .unexpectedStatus status body =>
      "unexpected status code: " ++ status ++ "  body=" ++ q body
  | .unmarshalling err body =>
      "unmarshalling body: " ++ err ++ "  body=" ++ q body
  | .missing deficit body =>
      "missing " ++ toString deficit ++ " devices! body=" ++ q body
  | .newMax maxDevices body =>
      "new max: " ++ toString maxDevices ++ " devices  body=" ++ q body

/-- Line 65. -/
def ua : String := "tailscale_falconhosts_0.1"

/-! ## `attempt` -/

/-- How lines 57-89 of `attempt` end: with `log.Fatal` (the process exits),
with a returned error, or with the body and the decoded `Resources`. -/
inductive Fetched where
  | fatal (err : String)
  | failed (err : AttemptError)
  | ok (body : Body) (resources : List String)

/-- Lines 60-67 of `attempt`: the GET request for the scroll URL with its two
headers, or the error of `http.NewRequestWithContext`. -/
def request (lib : Lib) (scrollURL : String) : Except String Request :=
  match lib.NewRequestWithContext "GET" scrollURL with
  | .error err => .error err
  | .ok req =>
    .ok { req with header := req.header ++ [("User-Agent", ua), ("CrowdStrike-SDK", ua)] }

/-- Lines 57-89 of `attempt`: build the request, send it, read the body,
check the status code, decode the body. -/
def fetch (lib : Lib) (scrollURL : String) (Do : Transport) : Fetched :=
  match request lib scrollURL with
  | .error err => .fatal err
  | .ok req =>
    match Do req with
    | .error err => .failed (.transport err)
    | .ok res =>
      match res.Body with
      | .error err => .failed (.readingBody err)
      | .ok body =>
        if res.StatusCode ≠ 200 then
          .failed (.unexpectedStatus res.Status body)
        else
          match lib.Unmarshal body with
          | .error err => .failed (.unmarshalling err body)
          | .ok resources => .ok body resources

/-- Lines 91-98 of `attempt`: compare `len(resbody.Resources)` with
`maxDevices`.  The result is the returned error and the new value of
`maxDevices`. -/
def watermark (resources : List String) (body : Body) (maxDevices : Int) :
    Option AttemptError × Int :=
  if (resources.length : Int) < maxDevices then
    (some (.missing (maxDevices - resources.length) body), maxDevices)
  else if (resources.length : Int) > maxDevices then
    (some (.newMax resources.length body), resources.length)
  else
    (none, maxDevices)

/-- How one call of `attempt` ends: the process exits through `log.Fatal`, or
the closure returns an error (or nil) and leaves `maxDevices` at a value. -/
inductive AttemptResult where
  | fatal (err : String)
  | returned (err : Option AttemptError) (maxDevices : Int)

/-- The closure `attempt` (lines 56-99), with the captured `maxDevices` passed
in and out. -/
def attempt (lib : Lib) (scrollURL : String) (Do : Transport) (maxDevices : Int) :
    AttemptResult :=
  match fetch lib scrollURL Do with
  | .fatal err => .fatal err
  | .failed err => .returned (some err) maxDevices
  | .ok body resources =>
    .returned (watermark resources body maxDevices).1 (watermark resources body maxDevices).2

/-! ## The loop and `main` -/

/-- What the process does that can be seen from outside. -/
inductive Event where
  | print (line : String)
  | usage
  | log (line : String)
  | sleep (d : Int)
deriving DecidableEq

/-- Lines 103-107: the line logged after `attempt` has returned `err`. -/
def logStep (q : Body → String) (quiet : Bool) (err : Option AttemptError) : List Event :=
  match err with
  | some e => [.log (e.Error q)]
  | none => if !quiet then [.log "same"] else []

/-- One completed pass through the loop body: what `attempt` returned and the
value of `maxDevices` afterwards. -/
structure Step where
  err : Option AttemptError
  maxDevices : Int
deriving DecidableEq

/-- A finite beginning of a run of the process. -/
structure Run where
  /-- The events so far, oldest first. -/
  events : List Event
  /-- The completed passes through the loop body, oldest first. -/
  steps : List Step
  /-- The value of `maxDevices`. -/
  maxDevices : Int
  /-- The exit status once the process has exited. -/
  exit : Option Nat

/-- The loop of lines 101-109, run for as many cycles as there are transport
answers.  `log.Fatal` inside `attempt` logs the error and exits with status
1. -/
def loop (lib : Lib) (flags : Flags) (scrollURL : String) : List Transport → Int → Run
  | [], maxDevices => ⟨[], [], maxDevices, none⟩
  | Do :: world, maxDevices =>
    match attempt lib scrollURL Do maxDevices with
    | .fatal err => ⟨[.log err], [], maxDevices, some 1⟩
    | .returned err maxDevices1 =>
      let r := loop lib flags scrollURL world maxDevices1
      ⟨logStep lib.Quote flags.quiet err ++ .sleep flags.interval :: r.events,
       ⟨err, maxDevices1⟩ :: r.steps, r.maxDevices, r.exit⟩

/-- Line 47. -/
def scrollURL (flags : Flags) : String :=
  flags.apiBase ++ "/devices/queries/devices-scroll/v1"

/-- The function `main` (lines 27-110) on parsed flags. -/
def main (lib : Lib) (flags : Flags) (world : List Transport) : Run :=
  let e1 : List Event :=
    if flags.clientID = "" then [.print "-client-id is required"] else []
  let e2 : List Event :=
    if flags.clientSecret = "" then [.print "-client-secret is required"] else []
  if flags.clientID = "" ∨ flags.clientSecret = "" then
    ⟨e1 ++ e2 ++ [.usage], [], 0, some 2⟩
  else
    match lib.Parse (scrollURL flags) with
    | .error err => ⟨[.log err], [], 0, some 1⟩
    | .ok _ => loop lib flags (scrollURL flags) world 0

/-! ## The vocabulary of the specification -/

/-- The poll outcomes named by the specification. -/
inductive Outcome where
  | Same
  | Increased (newMax : Int)
  | Decreased (deficit : Int)
  | FetchError (cause : AttemptError)
deriving DecidableEq

/-- The specification's name for what `attempt` returned: nil is `Same`, the
"new max" error is `Increased`, the "missing" error is `Decreased`, every
other error is a fetch error. -/
def outcomeOf : Option AttemptError → Outcome
  | none => .Same
  | some (.newMax n _) => .Increased n
  | some (.missing n _) => .Decreased n
  | some e => .FetchError e

/-- The Watermark Monitor as the specification words it (section 4.2):
`evaluate(count)` against the current `maxDevices`, giving the outcome and the
new `maxDevices`. -/
def evaluate (count maxDevices : Int) : Outcome × Int :=
  if count = maxDevices then (.Same, maxDevices)
  else if count < maxDevices then (.Decreased (maxDevices - count), maxDevices)
  else (.Increased count, count)

/-- The specification's monitor fed a sequence of counts: the outcome and the
value of `maxDevices` after each count. -/
def evaluateAll : List Nat → Int → List (Outcome × Int)
  | [], _ => []
  | count :: counts, maxDevices =>
    evaluate count maxDevices :: evaluateAll counts (evaluate count maxDevices).2

/-- The non-negative count a cycle fetches, when its fetch succeeds. -/
def fetchedCount (lib : Lib) (scrollURL : String) (Do : Transport) : Option Nat :=
  match fetch lib scrollURL Do with
  | .ok _ resources => some resources.length
  | _ => none

/-- Startup validation passed: both credentials are non-empty and `url.Parse`
of the scroll URL succeeded (lines 30-50). -/
def Started (lib : Lib) (flags : Flags) : Prop :=
  flags.clientID ≠ "" ∧ flags.clientSecret ≠ "" ∧ lib.Parse (scrollURL flags) = .ok ()

/-- The contract of `net/http` that `attempt` relies on: with the method
"GET", a non-nil context and a nil body, `http.NewRequestWithContext` fails
only when `url.Parse` of its URL argument fails. -/
def NewRequestContract (lib : Lib) : Prop :=
  ∀ url : String, lib.Parse url = .ok () → ∃ req, lib.NewRequestWithContext "GET" url = .ok req

/-! ## Inputs for the worked examples -/

/-- A library for the worked examples: every URL parses, the request is built
as asked, an empty body does not decode and a body of `k + 1` bytes decodes to
`k` resources. -/
def exampleLib : Lib where
  Parse := fun _ => .ok ()
  NewRequestWithContext := fun method url => .ok ⟨method, url, []⟩
  Unmarshal := fun body =>
    match body with
    | [] => .error "unexpected end of JSON input"
    | _ :: rest => .ok (rest.map fun _ => "id")
  Quote := fun _ => "<body>"

/-- A transport that answers every request with the given status and body. -/
def reply (status : String) (code : Int) (body : Body) : Transport :=
  fun _ => .ok ⟨status, code, .ok body⟩

/-- A transport whose answer has the given status and a body that
`io.ReadAll` fails to read, with the given error. -/
def replyUnread (status : String) (code : Int) (err : String) : Transport :=
  fun _ => .ok ⟨status, code, .error err⟩

/-- A 200 answer carrying `n` resources for `exampleLib`. -/
def replyCount (n : Nat) : Transport :=
  reply "200 OK" 200 (List.replicate (n + 1) 0)

/-- Flags with both credentials set. -/
def exampleFlags : Flags :=
  { clientID := "id", clientSecret := "secret" }

/-! ## Basic facts -/

theorem watermark_lt (resources : List String) (body : Body) (maxDevices : Int)
    (h : (resources.length : Int) < maxDevices) :
    watermark resources body maxDevices =
      (some (.missing (maxDevices - resources.length) body), maxDevices) := by
  simp [watermark, h]

theorem watermark_gt (resources : List String) (body : Body) (maxDevices : Int)
    (h : maxDevices < (resources.length : Int)) :
    watermark resources body maxDevices =
      (some (.newMax resources.length body), (resources.length : Int)) := by
  have h1 : ¬ (resources.length : Int) < maxDevices := by omega
  simp [watermark, h, h1]

theorem watermark_eq (resources : List String) (body : Body) (maxDevices : Int)
    (h : (resources.length : Int) = maxDevices) :
    watermark resources body maxDevices = (none, maxDevices) := by
  simp [watermark, ← h]

/-- The subtraction of line 92 stays within `(0, maxDevices]`, so the machine
`int` cannot wrap there. -/
theorem watermark_deficit_range (resources : List String) (maxDevices : Int)
    (h : (resources.length : Int) < maxDevices) :
    0 < maxDevices - resources.length ∧ maxDevices - resources.length ≤ maxDevices := by
  omega

/-- The new value of `maxDevices` is the larger of the old one and the
count. -/
theorem watermark_snd (resources : List String) (body : Body) (maxDevices : Int) :
    (watermark resources body maxDevices).2 = max maxDevices resources.length := by
  unfold watermark
  split_ifs with h1 h2
  · simp; omega
  · simp; omega
  · simp; omega

theorem attempt_of_fetch_ok {lib : Lib} {url : String} {Do : Transport} {body : Body}
    {resources : List String} (h : fetch lib url Do = .ok body resources) (maxDevices : Int) :
    attempt lib url Do maxDevices =
      .returned (watermark resources body maxDevices).1 (watermark resources body maxDevices).2 := by
  simp [attempt, h]

theorem attempt_of_fetch_failed {lib : Lib} {url : String} {Do : Transport} {e : AttemptError}
    (h : fetch lib url Do = .failed e) (maxDevices : Int) :
    attempt lib url Do maxDevices = .returned (some e) maxDevices := by
  simp [attempt, h]

theorem fetch_replyCount (url : String) (n : Nat) :
    fetch exampleLib url (replyCount n) =
      .ok (List.replicate (n + 1) 0) (List.replicate n "id") := by
  simp [fetch, request, exampleLib, replyCount, reply, List.replicate_succ]

theorem fetch_of_fetchedCount {lib : Lib} {url : String} {Do : Transport} {c : Nat}
    (h : fetchedCount lib url Do = some c) :
    ∃ body resources, fetch lib url Do = .ok body resources ∧ resources.length = c := by
  unfold fetchedCount at h
  split at h
  · next body resources hf => exact ⟨body, resources, hf, by simpa using h⟩
  · simp at h

theorem loop_nil (lib : Lib) (flags : Flags) (url : String) (m : Int) :
    loop lib flags url [] m = ⟨[], [], m, none⟩ := rfl

theorem loop_cons_returned {lib : Lib} {url : String} {Do : Transport} {m m1 : Int}
    {err : Option AttemptError} (flags : Flags) (world : List Transport)
    (h : attempt lib url Do m = .returned err m1) :
    loop lib flags url (Do :: world) m =
      ⟨logStep lib.Quote flags.quiet err ++
          .sleep flags.interval :: (loop lib flags url world m1).events,
        ⟨err, m1⟩ :: (loop lib flags url world m1).steps,
        (loop lib flags url world m1).maxDevices,
        (loop lib flags url world m1).exit⟩ := by
  simp [loop, h]

theorem loop_cons_fatal {lib : Lib} {url : String} {Do : Transport} {m : Int}
    {e : String} (flags : Flags) (world : List Transport)
    (h : attempt lib url Do m = .fatal e) :
    loop lib flags url (Do :: world) m = ⟨[.log e], [], m, some 1⟩ := by
  simp [loop, h]

/-- A returning `attempt` never lowers `maxDevices`. -/
theorem attempt_le {lib : Lib} {url : String} {Do : Transport} {m m1 : Int}
    {err : Option AttemptError} (h : attempt lib url Do m = .returned err m1) : m ≤ m1 := by
  unfold attempt at h
  split at h
  · simp at h
  · simp only [AttemptResult.returned.injEq] at h
    omega
  · next body resources _ =>
    simp only [AttemptResult.returned.injEq] at h
    rw [← h.2, watermark_snd]
    exact le_max_left _ _

theorem main_of_started {lib : Lib} {flags : Flags} (h : Started lib flags)
    (world : List Transport) :
    main lib flags world = loop lib flags (scrollURL flags) world 0 := by
  obtain ⟨h1, h2, h3⟩ := h
  simp [main, h1, h2, h3]

/-- A run in which every cycle fetches a count: the process is still running,
every cycle completed, and `maxDevices` is the largest of its initial value
and the counts. -/
theorem loop_of_counts (lib : Lib) (flags : Flags) (url : String) :
    ∀ (counts : List Nat) (world : List Transport) (n : Nat),
      world.map (fetchedCount lib url) = counts.map some →
      (loop lib flags url world n).maxDevices = ((counts.foldl max n : Nat) : Int) ∧
      (loop lib flags url world n).exit = none ∧
      (loop lib flags url world n).steps.length = world.length := by
  intro counts
  induction counts with
  | nil =>
    intro world n h
    have hw : world = [] := by simpa using h
    subst hw
    simp [loop_nil]
  | cons c cs ih =>
    intro world n h
    cases world with
    | nil => simp at h
    | cons Do rest =>
      simp only [List.map_cons, List.cons.injEq] at h
      obtain ⟨body, resources, hf, hlen⟩ := fetch_of_fetchedCount h.1
      have ha := attempt_of_fetch_ok hf (n : Int)
      rw [watermark_snd] at ha
      have hcast : max (n : Int) (resources.length : Int) = ((max n c : Nat) : Int) := by
        rw [hlen, Nat.cast_max]
      rw [hcast] at ha
      rw [loop_cons_returned flags rest ha]
      have := ih rest (max n c) h.2
      simpa using this

theorem fetchedCount_replyCount (url : String) (n : Nat) :
    fetchedCount exampleLib url (replyCount n) = some n := by
  simp [fetchedCount, fetch_replyCount]

theorem started_example : Started exampleLib exampleFlags :=
  ⟨by decide, by decide, rfl⟩

/-- Repeating a transport whose `attempt` returns without changing
`maxDevices` repeats the same step and leaves `maxDevices` alone. -/
theorem loop_replicate {lib : Lib} {url : String} {Do : Transport} {m : Int}
    {err : Option AttemptError} (flags : Flags)
    (h : attempt lib url Do m = .returned err m) (n : Nat) :
    (loop lib flags url (List.replicate n Do) m).maxDevices = m ∧
    (loop lib flags url (List.replicate n Do) m).steps = List.replicate n ⟨err, m⟩ ∧
    (loop lib flags url (List.replicate n Do) m).exit = none := by
  induction n with
  | zero => simp [loop_nil]
  | succ n ih =>
    rw [List.replicate_succ, loop_cons_returned flags _ h]
    simpa [List.replicate_succ] using ih

/-- Over any run the values of `maxDevices` after the completed cycles form a
non-decreasing chain that starts at the initial value. -/
theorem loop_chain (lib : Lib) (flags : Flags) (url : String) :
    ∀ (world : List Transport) (m : Int),
      List.Chain (fun a b => a ≤ b) m ((loop lib flags url world m).steps.map Step.maxDevices) ∧
      m ≤ (loop lib flags url world m).maxDevices ∧
      ((loop lib flags url world m).exit = none →
        (loop lib flags url world m).steps.length = world.length) := by
  intro world
  induction world with
  | nil => intro m; simp [loop_nil]
  | cons Do rest ih =>
    intro m
    cases ha : attempt lib url Do m with
    | fatal e => simp [loop_cons_fatal flags rest ha]
    | returned err m1 =>
      rw [loop_cons_returned flags rest ha]
      have hle := attempt_le ha
      obtain ⟨h1, h2, h3⟩ := ih m1
      refine ⟨?_, le_trans hle h2, ?_⟩
      · simpa using ⟨hle, h1⟩
      · intro hx
        simpa using h3 hx

/-- Lines 91-98 compute what the specification's `evaluate` describes. -/
theorem watermark_evaluate (resources : List String) (body : Body) (maxDevices : Int) :
    (outcomeOf (watermark resources body maxDevices).1, (watermark resources body maxDevices).2) =
      evaluate resources.length maxDevices := by
  rcases lt_trichotomy (resources.length : Int) maxDevices with h | h | h
  · have h1 : ¬ (resources.length : Int) = maxDevices := by omega
    simp [watermark_lt _ _ _ h, evaluate, outcomeOf, h, h1]
  · simp [watermark_eq _ _ _ h, evaluate, outcomeOf, h]
  · have h1 : ¬ (resources.length : Int) = maxDevices := by omega
    have h2 : ¬ (resources.length : Int) < maxDevices := by omega
    simp [watermark_gt _ _ _ h, evaluate, outcomeOf, h1, h2]

/-- A run in which every cycle fetches a count goes through the outcomes and
values of `maxDevices` of the specification's monitor. -/
theorem loop_steps_of_counts (lib : Lib) (flags : Flags) (url : String) :
    ∀ (counts : List Nat) (world : List Transport) (m : Int),
      world.map (fetchedCount lib url) = counts.map some →
      (loop lib flags url world m).steps.map (fun s => (outcomeOf s.err, s.maxDevices)) =
        evaluateAll counts m := by
  intro counts
  induction counts with
  | nil =>
    intro world m h
    have hw : world = [] := by simpa using h
    subst hw
    simp [loop_nil, evaluateAll]
  | cons c cs ih =>
    intro world m h
    cases world with
    | nil => simp at h
    | cons Do rest =>
      simp only [List.map_cons, List.cons.injEq] at h
      obtain ⟨body, resources, hf, hlen⟩ := fetch_of_fetchedCount h.1
      rw [loop_cons_returned flags rest (attempt_of_fetch_ok hf m)]
      have hw := watermark_evaluate resources body m
      rw [hlen] at hw
      have h2 : (watermark resources body m).2 = (evaluate c m).2 := by rw [← hw]
      simp only [List.map_cons, evaluateAll]
      rw [ih rest _ h.2, hw, h2]

/-- Cycles whose fetch fails leave `maxDevices` alone; the run goes on with
the cycles after them. -/
theorem loop_failures (lib : Lib) (flags : Flags) (url : String) (rest : List Transport)
    (m : Int) :
    ∀ failures : List Transport,
      (∀ D ∈ failures, ∃ e, fetch lib url D = .failed e) →
      ∃ pre : List Step,
        (loop lib flags url (failures ++ rest) m).steps = pre ++ (loop lib flags url rest m).steps ∧
        pre.length = failures.length ∧
        (∀ s ∈ pre, s.maxDevices = m ∧ ∃ e, s.err = some e) ∧
        (loop lib flags url (failures ++ rest) m).maxDevices = (loop lib flags url rest m).maxDevices ∧
        (loop lib flags url (failures ++ rest) m).exit = (loop lib flags url rest m).exit := by
  intro failures
  induction failures with
  | nil => intro _; exact ⟨[], by simp⟩
  | cons D ds ih =>
    intro h
    obtain ⟨e, he⟩ := h D (by simp)
    obtain ⟨pre, h1, h2, h3, h4, h5⟩ := ih (fun D1 hD1 => h D1 (by simp [hD1]))
    refine ⟨⟨some e, m⟩ :: pre, ?_, by simp [h2], ?_, ?_, ?_⟩
    · rw [List.cons_append, loop_cons_returned flags _ (attempt_of_fetch_failed he m)]
      simp [h1]
    · intro s hs
      rcases List.mem_cons.1 hs with hs | hs
      · subst hs; exact ⟨rfl, e, rfl⟩
      · exact h3 s hs
    · rw [List.cons_append, loop_cons_returned flags _ (attempt_of_fetch_failed he m)]
      simpa using h4
    · rw [List.cons_append, loop_cons_returned flags _ (attempt_of_fetch_failed he m)]
      simpa using h5

theorem request_example (url : String) :
    request exampleLib url =
      .ok ⟨"GET", url, [("User-Agent", ua), ("CrowdStrike-SDK", ua)]⟩ := rfl

theorem fetch_non200 {lib : Lib} {url : String} {Do : Transport} {req : Request}
    {res : Response} {body : Body} (hreq : request lib url = .ok req) (hdo : Do req = .ok res)
    (hbody : res.Body = .ok body) (hcode : res.StatusCode ≠ 200) :
    fetch lib url Do = .failed (.unexpectedStatus res.Status body) := by
  simp [fetch, hreq, hdo, hbody, hcode]

theorem fetch_read_error {lib : Lib} {url : String} {Do : Transport} {req : Request}
    {res : Response} {err : String} (hreq : request lib url = .ok req) (hdo : Do req = .ok res)
    (hbody : res.Body = .error err) :
    fetch lib url Do = .failed (.readingBody err) := by
  simp [fetch, hreq, hdo, hbody]

theorem fetch_transport_error {lib : Lib} {url : String} {Do : Transport} {req : Request}
    {err : String} (hreq : request lib url = .ok req) (hdo : Do req = .error err) :
    fetch lib url Do = .failed (.transport err) := by
  simp [fetch, hreq, hdo]

theorem fetch_decode_error {lib : Lib} {url : String} {Do : Transport} {req : Request}
    {res : Response} {body : Body} {err : String} (hreq : request lib url = .ok req)
    (hdo : Do req = .ok res) (hbody : res.Body = .ok body) (hcode : res.StatusCode = 200)
    (hdec : lib.Unmarshal body = .error err) :
    fetch lib url Do = .failed (.unmarshalling err body) := by
  simp [fetch, hreq, hdo, hbody, hcode, hdec]

/-- The errors of lines 71-89 are fetch errors in the specification's
vocabulary: `fetch` never fails with the "missing" or the "new max" error. -/
theorem outcomeOf_fetch_failed {lib : Lib} {url : String} {Do : Transport} {e : AttemptError}
    (h : fetch lib url Do = .failed e) : outcomeOf (some e) = .FetchError e := by
  unfold fetch at h
  split at h
  · simp at h
  · split at h
    · simp only [Fetched.failed.injEq] at h; subst h; rfl
    · split at h
      · simp only [Fetched.failed.injEq] at h; subst h; rfl
      · split at h
        · simp only [Fetched.failed.injEq] at h; subst h; rfl
        · split at h
          · simp only [Fetched.failed.injEq] at h; subst h; rfl
          · simp at h

/-- Once the request can be built, `attempt` returns. -/
theorem fetch_not_fatal {lib : Lib} {url : String} {req : Request}
    (hreq : request lib url = .ok req) (Do : Transport) :
    (∃ e, fetch lib url Do = .failed e) ∨ ∃ body resources, fetch lib url Do = .ok body resources := by
  unfold fetch
  rw [hreq]
  simp only
  split
  · exact .inl ⟨_, rfl⟩
  · split
    · exact .inl ⟨_, rfl⟩
    · split
      · exact .inl ⟨_, rfl⟩
      · split
        · exact .inl ⟨_, rfl⟩
        · exact .inr ⟨_, _, rfl⟩

theorem attempt_not_fatal {lib : Lib} {url : String} {req : Request}
    (hreq : request lib url = .ok req) (Do : Transport) (m : Int) :
    ∃ err m1, attempt lib url Do m = .returned err m1 := by
  rcases fetch_not_fatal hreq Do with ⟨e, he⟩ | ⟨body, resources, hf⟩
  · exact ⟨_, _, attempt_of_fetch_failed he m⟩
  · exact ⟨_, _, attempt_of_fetch_ok hf m⟩

/-- Once the request can be built, the loop goes through every cycle: it does
not exit, each cycle logs what `attempt` returned and then sleeps, and a
failed fetch is the returned error of its cycle. -/
theorem loop_running {lib : Lib} {url : String} {req : Request} (flags : Flags)
    (hreq : request lib url = .ok req) :
    ∀ (world : List Transport) (m : Int),
      (loop lib flags url world m).exit = none ∧
      (loop lib flags url world m).steps.length = world.length ∧
      (loop lib flags url world m).events =
        (loop lib flags url world m).steps.flatMap
          (fun s => logStep lib.Quote flags.quiet s.err ++ [.sleep flags.interval]) ∧
      List.Forall₂ (fun Do s => ∀ e, fetch lib url Do = .failed e → s.err = some e)
        world (loop lib flags url world m).steps := by
  intro world
  induction world with
  | nil => intro m; simp [loop_nil]
  | cons Do rest ih =>
    intro m
    obtain ⟨err, m1, ha⟩ := attempt_not_fatal hreq Do m
    obtain ⟨h1, h2, h3, h4⟩ := ih m1
    rw [loop_cons_returned flags rest ha]
    refine ⟨h1, by simp [h2], ?_, ?_⟩
    · simp only [List.flatMap_cons, List.append_assoc, List.singleton_append]
      rw [← h3]
    · refine List.Forall₂.cons ?_ h4
      intro e he
      rw [attempt_of_fetch_failed he m] at ha
      simp only [AttemptResult.returned.injEq] at ha
      exact ha.1.symm

theorem request_of_contract {lib : Lib} {flags : Flags} (hstart : Started lib flags)
    (hlib : NewRequestContract lib) : ∃ req, request lib (scrollURL flags) = .ok req := by
  obtain ⟨req0, h0⟩ := hlib _ hstart.2.2
  exact ⟨{ req0 with header := req0.header ++ [("User-Agent", ua), ("CrowdStrike-SDK", ua)] },
    by simp [request, h0]⟩

theorem contract_example : NewRequestContract exampleLib :=
  fun _ _ => ⟨_, rfl⟩

/-! ## The watermark step -/

/-- C1: after a successful fetch of `resources`, `attempt` returns nil and
leaves `maxDevices` alone when the count equals it, returns the "missing"
error with the deficit and leaves `maxDevices` alone when the count is below
it, and returns the "new max" error with the count and sets `maxDevices` to
the count when the count is above it; the outcome is `Same`, `Decreased` or
`Increased` exactly in these three cases, so exactly one is produced. -/
theorem attempt_watermark_classifies (lib : Lib) (url : String) (Do : Transport)
    (body : Body) (resources : List String) (maxDevices : Int)
    (hfetch : fetch lib url Do = .ok body resources) :
    ∃ err m, attempt lib url Do maxDevices = .returned err m ∧
      ((resources.length : Int) = maxDevices → err = none ∧ m = maxDevices) ∧
      ((resources.length : Int) < maxDevices →
        err = some (.missing (maxDevices - resources.length) body) ∧
        outcomeOf err = .Decreased (maxDevices - resources.length) ∧ m = maxDevices) ∧
      ((resources.length : Int) > maxDevices →
        err = some (.newMax resources.length body) ∧
        outcomeOf err = .Increased resources.length ∧ m = resources.length) ∧
      (outcomeOf err = .Same ↔ (resources.length : Int) = maxDevices) ∧
      ((∃ d, outcomeOf err = .Decreased d) ↔ (resources.length : Int) < maxDevices) ∧
      ((∃ n, outcomeOf err = .Increased n) ↔ (resources.length : Int) > maxDevices) ∧
      (∀ cause, outcomeOf err ≠ .FetchError cause) := by
  refine ⟨_, _, attempt_of_fetch_ok hfetch maxDevices, ?_⟩
  rcases lt_trichotomy (resources.length : Int) maxDevices with h | h | h
  · have h1 : ¬ (resources.length : Int) = maxDevices := by omega
    have h2 : ¬ (resources.length : Int) > maxDevices := by omega
    simp [watermark_lt _ _ _ h, outcomeOf, h, h1, h2]
  · have h1 : ¬ (resources.length : Int) < maxDevices := by omega
    have h2 : ¬ (resources.length : Int) > maxDevices := by omega
    simp [watermark_eq _ _ _ h, outcomeOf, h1, h2]
    simp [h]
  · have h1 : ¬ (resources.length : Int) = maxDevices := by omega
    have h2 : ¬ (resources.length : Int) < maxDevices := by omega
    simp [watermark_gt _ _ _ h, outcomeOf, h, h1, h2]

theorem attempt_watermark_classifies_witness :
    ∃ err m, attempt exampleLib "u" (replyCount 3) 5 = .returned err m ∧
      (((List.replicate 3 "id").length : Int) = 5 → err = none ∧ m = 5) ∧
      (((List.replicate 3 "id").length : Int) < 5 →
        err = some (.missing (5 - (List.replicate 3 "id").length) (List.replicate (3 + 1) 0)) ∧
        outcomeOf err = .Decreased (5 - (List.replicate 3 "id").length) ∧ m = 5) ∧
      (((List.replicate 3 "id").length : Int) > 5 →
        err = some (.newMax (List.replicate 3 "id").length (List.replicate (3 + 1) 0)) ∧
        outcomeOf err = .Increased (List.replicate 3 "id").length ∧
        m = (List.replicate 3 "id").length) ∧
      (outcomeOf err = .Same ↔ ((List.replicate 3 "id").length : Int) = 5) ∧
      ((∃ d, outcomeOf err = .Decreased d) ↔ ((List.replicate 3 "id").length : Int) < 5) ∧
      ((∃ n, outcomeOf err = .Increased n) ↔ ((List.replicate 3 "id").length : Int) > 5) ∧
      (∀ cause, outcomeOf err ≠ .FetchError cause) :=
  attempt_watermark_classifies exampleLib "u" (replyCount 3) (List.replicate (3 + 1) 0)
    (List.replicate 3 "id") 5 (fetch_replyCount "u" 3)

/-! ## The watermark over a run -/

/-- C2: when startup has passed and every cycle of a run fetches a count,
`maxDevices` after the first `k` cycles is the largest of the first `k`
counts, and 0 before any cycle. -/
theorem maxDevices_running_max (lib : Lib) (flags : Flags) (world : List Transport)
    (counts : List Nat) (hstart : Started lib flags)
    (hfetch : world.map (fetchedCount lib (scrollURL flags)) = counts.map some) :
    ∀ k : Nat,
      (main lib flags (world.take k)).maxDevices = (((counts.take k).foldl max 0 : Nat) : Int) ∧
      (main lib flags (world.take k)).steps.length = min k counts.length := by
  intro k
  have hk : (world.take k).map (fetchedCount lib (scrollURL flags)) = (counts.take k).map some := by
    rw [List.map_take, List.map_take, hfetch]
  have hlen : world.length = counts.length := by
    simpa using congrArg List.length hfetch
  rw [main_of_started hstart]
  have := loop_of_counts lib flags (scrollURL flags) (counts.take k) (world.take k) 0 hk
  simp only [Nat.cast_zero] at this
  refine ⟨this.1, ?_⟩
  rw [this.2.2, List.length_take, hlen]

theorem maxDevices_running_max_witness :
    Started exampleLib exampleFlags ∧
    [replyCount 2, replyCount 4, replyCount 1].map
        (fetchedCount exampleLib (scrollURL exampleFlags)) = [2, 4, 1].map some ∧
    ∀ k : Nat,
      (main exampleLib exampleFlags
          ([replyCount 2, replyCount 4, replyCount 1].take k)).maxDevices =
        (((([2, 4, 1] : List Nat).take k).foldl max 0 : Nat) : Int) ∧
      (main exampleLib exampleFlags
          ([replyCount 2, replyCount 4, replyCount 1].take k)).steps.length =
        min k ([2, 4, 1] : List Nat).length :=
  ⟨started_example, by simp [fetchedCount_replyCount],
    maxDevices_running_max exampleLib exampleFlags [replyCount 2, replyCount 4, replyCount 1]
      [2, 4, 1] started_example (by simp [fetchedCount_replyCount])⟩

/-- C3: when a fetched count is at most `maxDevices`, `attempt` leaves
`maxDevices` unchanged, and evaluating the same answer `n` times in a row
leaves `maxDevices` at its initial value and returns the same thing every
time: nil (`Same`) when the count equals `maxDevices`, the "missing" error
with the deficit (`Decreased`) when it is below. -/
theorem repeat_nonincreasing_count (lib : Lib) (flags : Flags) (url : String)
    (Do : Transport) (body : Body) (resources : List String) (maxDevices : Int) (n : Nat)
    (hfetch : fetch lib url Do = .ok body resources)
    (hle : (resources.length : Int) ≤ maxDevices) :
    ∃ err, attempt lib url Do maxDevices = .returned err maxDevices ∧
      (loop lib flags url (List.replicate n Do) maxDevices).maxDevices = maxDevices ∧
      (loop lib flags url (List.replicate n Do) maxDevices).steps =
        List.replicate n ⟨err, maxDevices⟩ ∧
      (loop lib flags url (List.replicate n Do) maxDevices).exit = none ∧
      ((resources.length : Int) = maxDevices → err = none ∧ outcomeOf err = .Same) ∧
      ((resources.length : Int) < maxDevices →
        err = some (.missing (maxDevices - resources.length) body) ∧
        outcomeOf err = .Decreased (maxDevices - resources.length)) := by
  have ha := attempt_of_fetch_ok hfetch maxDevices
  have h2 : (watermark resources body maxDevices).2 = maxDevices := by
    rw [watermark_snd]; exact max_eq_left hle
  rw [h2] at ha
  refine ⟨_, ha, (loop_replicate flags ha n).1, (loop_replicate flags ha n).2.1,
    (loop_replicate flags ha n).2.2, ?_, ?_⟩
  · intro h
    simp [watermark_eq _ _ _ h, outcomeOf]
  · intro h
    simp [watermark_lt _ _ _ h, outcomeOf]

theorem repeat_nonincreasing_count_witness :
    ∃ err, attempt exampleLib "u" (replyCount 3) 5 = .returned err 5 ∧
      (loop exampleLib exampleFlags "u" (List.replicate 4 (replyCount 3)) 5).maxDevices = 5 ∧
      (loop exampleLib exampleFlags "u" (List.replicate 4 (replyCount 3)) 5).steps =
        List.replicate 4 ⟨err, 5⟩ ∧
      (loop exampleLib exampleFlags "u" (List.replicate 4 (replyCount 3)) 5).exit = none ∧
      (((List.replicate 3 "id").length : Int) = 5 → err = none ∧ outcomeOf err = .Same) ∧
      (((List.replicate 3 "id").length : Int) < 5 →
        err = some (.missing (5 - (List.replicate 3 "id").length) (List.replicate (3 + 1) 0)) ∧
        outcomeOf err = .Decreased (5 - (List.replicate 3 "id").length)) :=
  repeat_nonincreasing_count exampleLib exampleFlags "u" (replyCount 3)
    (List.replicate (3 + 1) 0) (List.replicate 3 "id") 5 4 (fetch_replyCount "u" 3)
    (by simp)

/-- C4: over any run of the loop, whatever each cycle does (a failed fetch,
a fetched count, even the exit through `log.Fatal`), the value of
`maxDevices` after each completed cycle is at least its value before that
cycle; a run that has not exited has completed every cycle. -/
theorem maxDevices_nondecreasing (lib : Lib) (flags : Flags) (url : String)
    (world : List Transport) (m : Int) :
    List.Chain (fun a b => a ≤ b) m ((loop lib flags url world m).steps.map Step.maxDevices) ∧
    m ≤ (loop lib flags url world m).maxDevices ∧
    ((loop lib flags url world m).exit = none →
      (loop lib flags url world m).steps.length = world.length) ∧
    (∀ (Do : Transport) (err : Option AttemptError) (m1 : Int),
      attempt lib url Do m = .returned err m1 → m ≤ m1) :=
  ⟨(loop_chain lib flags url world m).1, (loop_chain lib flags url world m).2.1,
    (loop_chain lib flags url world m).2.2, fun _ _ _ h => attempt_le h⟩

/-- C5: when startup has passed and six cycles in a row fetch the counts 5, 5,
3, 7, 7, 2, the outcomes are `Increased 5`, `Same`, `Decreased 2`,
`Increased 7`, `Same`, `Decreased 5` and `maxDevices` ends at 7. -/
theorem outcomes_of_example_counts (lib : Lib) (flags : Flags) (world : List Transport)
    (hstart : Started lib flags)
    (hfetch : world.map (fetchedCount lib (scrollURL flags)) =
      [some 5, some 5, some 3, some 7, some 7, some 2]) :
    (main lib flags world).steps.map (fun s => outcomeOf s.err) =
      [.Increased 5, .Same, .Decreased 2, .Increased 7, .Same, .Decreased 5] ∧
    (main lib flags world).maxDevices = 7 := by
  have hc : world.map (fetchedCount lib (scrollURL flags)) =
      ([5, 5, 3, 7, 7, 2] : List Nat).map some := by simpa using hfetch
  rw [main_of_started hstart]
  have h1 := loop_steps_of_counts lib flags (scrollURL flags) _ world 0 hc
  have h2 := (loop_of_counts lib flags (scrollURL flags) _ world 0 hc).1
  constructor
  · have h3 := congrArg (List.map Prod.fst) h1
    simp only [List.map_map] at h3
    rw [show (fun s : Step => outcomeOf s.err) =
      Prod.fst ∘ (fun s : Step => (outcomeOf s.err, s.maxDevices)) from rfl, h3]
    simp [evaluateAll, evaluate]
  · simp only [Nat.cast_zero] at h2
    rw [h2]
    simp

theorem outcomes_of_example_counts_witness :
    (main exampleLib exampleFlags
        [replyCount 5, replyCount 5, replyCount 3, replyCount 7, replyCount 7,
          replyCount 2]).steps.map (fun s => outcomeOf s.err) =
      [.Increased 5, .Same, .Decreased 2, .Increased 7, .Same, .Decreased 5] ∧
    (main exampleLib exampleFlags
        [replyCount 5, replyCount 5, replyCount 3, replyCount 7, replyCount 7,
          replyCount 2]).maxDevices = 7 :=
  outcomes_of_example_counts exampleLib exampleFlags
    [replyCount 5, replyCount 5, replyCount 3, replyCount 7, replyCount 7, replyCount 2]
    started_example (by simp [fetchedCount_replyCount])

/-! ## Fetch errors -/

/-- C6, as stated, fails: a 500 answer whose body `io.ReadAll` cannot read
satisfies everything the claim asks of the response, and `attempt` returns the
"reading body" error of line 77, which is no "unexpected status code" error
and whose message is "reading body: unexpected EOF", without the status and
without a body.  So not every answer with a status other than 200 yields an
error carrying the status and the raw body. -/
theorem non200_unread_body_counterexample :
    request exampleLib "u" =
      .ok ⟨"GET", "u", [("User-Agent", ua), ("CrowdStrike-SDK", ua)]⟩ ∧
    replyUnread "500 Internal Server Error" 500 "unexpected EOF"
        ⟨"GET", "u", [("User-Agent", ua), ("CrowdStrike-SDK", ua)]⟩ =
      .ok ⟨"500 Internal Server Error", 500, .error "unexpected EOF"⟩ ∧
    (Response.mk "500 Internal Server Error" 500 (.error "unexpected EOF")).StatusCode ≠ 200 ∧
    attempt exampleLib "u" (replyUnread "500 Internal Server Error" 500 "unexpected EOF") 1 =
      .returned (some (.readingBody "unexpected EOF")) 1 ∧
    (AttemptError.readingBody "unexpected EOF").Error exampleLib.Quote =
      "reading body: unexpected EOF" ∧
    (∀ status body,
      attempt exampleLib "u" (replyUnread "500 Internal Server Error" 500 "unexpected EOF") 1 ≠
        .returned (some (.unexpectedStatus status body)) 1) ∧
    ¬ (∀ (lib : Lib) (url : String) (Do : Transport) (req : Request) (res : Response)
        (maxDevices : Int),
        request lib url = .ok req → Do req = .ok res → res.StatusCode ≠ 200 →
        ∃ body, attempt lib url Do maxDevices =
          .returned (some (.unexpectedStatus res.Status body)) maxDevices) := by
  have ha : attempt exampleLib "u"
      (replyUnread "500 Internal Server Error" 500 "unexpected EOF") 1 =
      .returned (some (.readingBody "unexpected EOF")) 1 :=
    attempt_of_fetch_failed (fetch_read_error (request_example "u") rfl rfl) 1
  refine ⟨rfl, rfl, by decide, ha, by decide, ?_, ?_⟩
  · intro status body h
    rw [ha] at h
    simp at h
  · intro h
    obtain ⟨body, hb⟩ := h exampleLib "u"
      (replyUnread "500 Internal Server Error" 500 "unexpected EOF") _ _ 1
      (request_example "u") rfl (by decide)
    rw [ha] at hb
    simp at hb

/-- C6, amended: when the answer of `client.Do` has a status code other than
200, `attempt` returns a fetch error and leaves `maxDevices` unchanged, and
the result is the same whatever `json.Unmarshal` would make of the body, which
is never decoded.  When `io.ReadAll` has read the body, the error is the
"unexpected status code" error whose message holds the status text and the
quoted raw body; when `io.ReadAll` fails, it is the "reading body" error
holding the read error. -/
theorem non200_is_fetch_error (lib : Lib) (url : String) (Do : Transport) (req : Request)
    (res : Response) (maxDevices : Int)
    (hreq : request lib url = .ok req) (hdo : Do req = .ok res)
    (hcode : res.StatusCode ≠ 200) :
    (∃ e, attempt lib url Do maxDevices = .returned (some e) maxDevices ∧
      outcomeOf (some e) = .FetchError e) ∧
    (∀ body, res.Body = .ok body →
      attempt lib url Do maxDevices =
        .returned (some (.unexpectedStatus res.Status body)) maxDevices ∧
      (AttemptError.unexpectedStatus res.Status body).Error lib.Quote =
        "unexpected status code: " ++ res.Status ++ "  body=" ++ lib.Quote body) ∧
    (∀ err, res.Body = .error err →
      attempt lib url Do maxDevices = .returned (some (.readingBody err)) maxDevices ∧
      (AttemptError.readingBody err).Error lib.Quote = "reading body: " ++ err) ∧
    (∀ unmarshal : Body → Except String (List String),
      attempt { lib with Unmarshal := unmarshal } url Do maxDevices =
        attempt lib url Do maxDevices) := by
  have key : ∃ e, fetch lib url Do = .failed e ∧
      ∀ unmarshal : Body → Except String (List String),
        fetch { lib with Unmarshal := unmarshal } url Do = .failed e := by
    cases hb : res.Body with
    | error err =>
      exact ⟨_, fetch_read_error hreq hdo hb, fun u =>
        @fetch_read_error { lib with Unmarshal := u } url Do req res _ hreq hdo hb⟩
    | ok body =>
      exact ⟨_, fetch_non200 hreq hdo hb hcode, fun u =>
        @fetch_non200 { lib with Unmarshal := u } url Do req res _ hreq hdo hb hcode⟩
  obtain ⟨e, he, hu⟩ := key
  refine ⟨⟨e, attempt_of_fetch_failed he _, outcomeOf_fetch_failed he⟩, ?_, ?_, ?_⟩
  · intro body hb
    exact ⟨attempt_of_fetch_failed (fetch_non200 hreq hdo hb hcode) _, rfl⟩
  · intro err hb
    exact ⟨attempt_of_fetch_failed (fetch_read_error hreq hdo hb) _, rfl⟩
  · intro u
    rw [attempt_of_fetch_failed he, attempt_of_fetch_failed (hu u)]

theorem non200_is_fetch_error_witness :
    (∃ e, attempt exampleLib "u" (reply "500 Internal Server Error" 500 [0, 0, 0]) 1 =
        .returned (some e) 1 ∧ outcomeOf (some e) = .FetchError e) ∧
    (∀ body, (Response.mk "500 Internal Server Error" 500 (.ok [0, 0, 0])).Body = .ok body →
      attempt exampleLib "u" (reply "500 Internal Server Error" 500 [0, 0, 0]) 1 =
        .returned (some (.unexpectedStatus
          (Response.mk "500 Internal Server Error" 500 (.ok [0, 0, 0])).Status body)) 1 ∧
      (AttemptError.unexpectedStatus
          (Response.mk "500 Internal Server Error" 500 (.ok [0, 0, 0])).Status body).Error
          exampleLib.Quote =
        "unexpected status code: " ++
          (Response.mk "500 Internal Server Error" 500 (.ok [0, 0, 0])).Status ++
          "  body=" ++ exampleLib.Quote body) ∧
    (∀ err, (Response.mk "500 Internal Server Error" 500 (.ok [0, 0, 0])).Body = .error err →
      attempt exampleLib "u" (reply "500 Internal Server Error" 500 [0, 0, 0]) 1 =
        .returned (some (.readingBody err)) 1 ∧
      (AttemptError.readingBody err).Error exampleLib.Quote = "reading body: " ++ err) ∧
    (∀ unmarshal : Body → Except String (List String),
      attempt { exampleLib with Unmarshal := unmarshal } "u"
          (reply "500 Internal Server Error" 500 [0, 0, 0]) 1 =
        attempt exampleLib "u" (reply "500 Internal Server Error" 500 [0, 0, 0]) 1) :=
  non200_is_fetch_error exampleLib "u" (reply "500 Internal Server Error" 500 [0, 0, 0])
    ⟨"GET", "u", [("User-Agent", ua), ("CrowdStrike-SDK", ua)]⟩
    ⟨"500 Internal Server Error", 500, .ok [0, 0, 0]⟩ 1 (request_example "u") rfl (by decide)

/-- C7: when the answer has status code 200 and `json.Unmarshal` of its body
fails, `attempt` returns the "unmarshalling body" error, a fetch error whose
message holds the decoder's error and the quoted raw body, and leaves
`maxDevices` unchanged; the returned error is the same for every value of
`maxDevices`, with which the count is never compared. -/
theorem undecodable_body_is_fetch_error (lib : Lib) (url : String) (Do : Transport)
    (req : Request) (res : Response) (body : Body) (err : String) (maxDevices : Int)
    (hreq : request lib url = .ok req) (hdo : Do req = .ok res)
    (hcode : res.StatusCode = 200) (hbody : res.Body = .ok body)
    (hdec : lib.Unmarshal body = .error err) :
    attempt lib url Do maxDevices = .returned (some (.unmarshalling err body)) maxDevices ∧
    outcomeOf (some (.unmarshalling err body)) = .FetchError (.unmarshalling err body) ∧
    (AttemptError.unmarshalling err body).Error lib.Quote =
      "unmarshalling body: " ++ err ++ "  body=" ++ lib.Quote body :=
  ⟨attempt_of_fetch_failed (fetch_decode_error hreq hdo hbody hcode hdec) _, rfl, rfl⟩

theorem undecodable_body_is_fetch_error_witness :
    attempt exampleLib "u" (reply "200 OK" 200 []) 4 =
      .returned (some (.unmarshalling "unexpected end of JSON input" [])) 4 ∧
    outcomeOf (some (.unmarshalling "unexpected end of JSON input" [])) =
      .FetchError (.unmarshalling "unexpected end of JSON input" []) ∧
    (AttemptError.unmarshalling "unexpected end of JSON input" []).Error exampleLib.Quote =
      "unmarshalling body: " ++ "unexpected end of JSON input" ++ "  body=" ++
        exampleLib.Quote [] :=
  undecodable_body_is_fetch_error exampleLib "u" (reply "200 OK" 200 [])
    ⟨"GET", "u", [("User-Agent", ua), ("CrowdStrike-SDK", ua)]⟩
    ⟨"200 OK", 200, .ok []⟩ [] "unexpected end of JSON input" 4 (request_example "u") rfl rfl
    rfl rfl

/-! ## The loop body -/

/-- C8: in a cycle in which `attempt` returned, the loop logs a line exactly
when the outcome is `Increased`, `Decreased` or a fetch error, or the outcome
is `Same` and the quiet flag is off; for every other outcome than `Same` the
cycle's events are the same with the flag on and off, and for `Same` the flag
removes the line "same" and nothing else. -/
theorem quiet_suppresses_only_same (lib : Lib) (flags : Flags) (url : String)
    (Do : Transport) (m : Int) (err : Option AttemptError) (m1 : Int)
    (h : attempt lib url Do m = .returned err m1) :
    ((∃ line, Event.log line ∈ (loop lib flags url [Do] m).events) ↔
      ((∃ n, outcomeOf err = .Increased n) ∨ (∃ d, outcomeOf err = .Decreased d) ∨
        (∃ cause, outcomeOf err = .FetchError cause) ∨
        (outcomeOf err = .Same ∧ flags.quiet = false))) ∧
    (outcomeOf err ≠ .Same →
      (loop lib { flags with quiet := true } url [Do] m).events =
        (loop lib { flags with quiet := false } url [Do] m).events ∧
      ∀ e, err = some e →
        (loop lib flags url [Do] m).events =
          [.log (e.Error lib.Quote), .sleep flags.interval]) ∧
    (outcomeOf err = .Same →
      (loop lib { flags with quiet := false } url [Do] m).events =
        [.log "same", .sleep flags.interval] ∧
      (loop lib { flags with quiet := true } url [Do] m).events = [.sleep flags.interval]) := by
  have hev : ∀ fl : Flags, (loop lib fl url [Do] m).events =
      logStep lib.Quote fl.quiet err ++ [.sleep fl.interval] := by
    intro fl
    rw [loop_cons_returned fl [] h]
    simp [loop_nil]
  simp only [hev]
  cases err with
  | none =>
    cases hq : flags.quiet <;> simp [logStep, outcomeOf, hq]
  | some e =>
    cases e <;> simp [logStep, outcomeOf]

theorem quiet_suppresses_only_same_witness :
    ((∃ line, Event.log line ∈
        (loop exampleLib exampleFlags "u" [replyCount 2] 2).events) ↔
      ((∃ n, outcomeOf none = .Increased n) ∨ (∃ d, outcomeOf none = .Decreased d) ∨
        (∃ cause, outcomeOf none = .FetchError cause) ∨
        (outcomeOf none = .Same ∧ exampleFlags.quiet = false))) ∧
    (outcomeOf none ≠ .Same →
      (loop exampleLib { exampleFlags with quiet := true } "u" [replyCount 2] 2).events =
        (loop exampleLib { exampleFlags with quiet := false } "u" [replyCount 2] 2).events ∧
      ∀ e, (none : Option AttemptError) = some e →
        (loop exampleLib exampleFlags "u" [replyCount 2] 2).events =
          [.log (e.Error exampleLib.Quote), .sleep exampleFlags.interval]) ∧
    (outcomeOf none = .Same →
      (loop exampleLib { exampleFlags with quiet := false } "u" [replyCount 2] 2).events =
        [.log "same", .sleep exampleFlags.interval] ∧
      (loop exampleLib { exampleFlags with quiet := true } "u" [replyCount 2] 2).events =
        [.sleep exampleFlags.interval]) :=
  quiet_suppresses_only_same exampleLib exampleFlags "u" (replyCount 2) 2 none 2
    (by rw [attempt_of_fetch_ok (fetch_replyCount "u" 2)]; simp [watermark])

/-- C9: when startup has passed, the first successful fetch of a run, coming
after any number of cycles whose fetch failed, meets `maxDevices = 0`: with
no resources `attempt` returns nil (`Same`) and `maxDevices` stays 0, with
at least one resource it returns the "new max" error (`Increased` with the
count) and `maxDevices` becomes the count. -/
theorem first_fetch_on_fresh_monitor (lib : Lib) (flags : Flags) (failures : List Transport)
    (Do : Transport) (body : Body) (resources : List String)
    (hstart : Started lib flags)
    (hfail : ∀ D ∈ failures, ∃ e, fetch lib (scrollURL flags) D = .failed e)
    (hfetch : fetch lib (scrollURL flags) Do = .ok body resources) :
    (resources.length = 0 →
      attempt lib (scrollURL flags) Do 0 = .returned none 0 ∧
      (main lib flags (failures ++ [Do])).steps.getLast? = some ⟨none, 0⟩ ∧
      outcomeOf none = .Same ∧
      (main lib flags (failures ++ [Do])).maxDevices = 0) ∧
    (0 < resources.length →
      attempt lib (scrollURL flags) Do 0 =
        .returned (some (.newMax resources.length body)) resources.length ∧
      (main lib flags (failures ++ [Do])).steps.getLast? =
        some ⟨some (.newMax resources.length body), resources.length⟩ ∧
      outcomeOf (some (.newMax resources.length body)) = .Increased resources.length ∧
      (main lib flags (failures ++ [Do])).maxDevices = resources.length) := by
  rw [main_of_started hstart]
  obtain ⟨pre, h1, _, _, h4, _⟩ :=
    loop_failures lib flags (scrollURL flags) [Do] 0 failures hfail
  rw [h1, h4]
  have ha := attempt_of_fetch_ok hfetch 0
  constructor
  · intro h0
    have hw : watermark resources body 0 = (none, 0) := watermark_eq _ _ _ (by simp [h0])
    rw [hw] at ha
    rw [loop_cons_returned flags [] ha]
    simp [loop_nil, ha, outcomeOf]
  · intro hpos
    have hw := watermark_gt resources body 0 (by exact_mod_cast hpos)
    rw [hw] at ha
    rw [loop_cons_returned flags [] ha]
    simp [loop_nil, ha, outcomeOf]

theorem first_fetch_on_fresh_monitor_witness :
    ((List.replicate 0 "id").length = 0 →
      attempt exampleLib (scrollURL exampleFlags) (replyCount 0) 0 = .returned none 0 ∧
      (main exampleLib exampleFlags
          ([reply "500 Internal Server Error" 500 []] ++ [replyCount 0])).steps.getLast? =
        some ⟨none, 0⟩ ∧
      outcomeOf none = .Same ∧
      (main exampleLib exampleFlags
          ([reply "500 Internal Server Error" 500 []] ++ [replyCount 0])).maxDevices = 0) ∧
    (0 < (List.replicate 0 "id").length →
      attempt exampleLib (scrollURL exampleFlags) (replyCount 0) 0 =
        .returned (some (.newMax (List.replicate 0 "id").length (List.replicate (0 + 1) 0)))
          (List.replicate 0 "id").length ∧
      (main exampleLib exampleFlags
          ([reply "500 Internal Server Error" 500 []] ++ [replyCount 0])).steps.getLast? =
        some ⟨some (.newMax (List.replicate 0 "id").length (List.replicate (0 + 1) 0)),
          (List.replicate 0 "id").length⟩ ∧
      outcomeOf (some (.newMax (List.replicate 0 "id").length (List.replicate (0 + 1) 0))) =
        .Increased (List.replicate 0 "id").length ∧
      (main exampleLib exampleFlags
          ([reply "500 Internal Server Error" 500 []] ++ [replyCount 0])).maxDevices =
        (List.replicate 0 "id").length) :=
  first_fetch_on_fresh_monitor exampleLib exampleFlags [reply "500 Internal Server Error" 500 []]
    (replyCount 0) (List.replicate (0 + 1) 0) (List.replicate 0 "id") started_example
    (fun D hD => by
      rw [List.mem_singleton.1 hD]
      exact ⟨_, fetch_non200 (request_example _) rfl rfl (by decide)⟩)
    (fetch_replyCount _ 0)

/-- C10: when startup has passed, and given the contract of
`http.NewRequestWithContext`, a run of any number of cycles never exits:
`attempt` never reaches `log.Fatal`, every cycle completes, each cycle logs
what `attempt` returned and then sleeps, and each failure inside `attempt` (a
transport error, a body read error, a status other than 200, a decode error)
is the returned error of its cycle and is the line logged in that cycle. -/
theorem loop_body_never_exits (lib : Lib) (flags : Flags) (world : List Transport)
    (hstart : Started lib flags) (hlib : NewRequestContract lib) :
    (main lib flags world).exit = none ∧
    (main lib flags world).steps.length = world.length ∧
    (main lib flags world).events =
      (main lib flags world).steps.flatMap
        (fun s => logStep lib.Quote flags.quiet s.err ++ [.sleep flags.interval]) ∧
    (∀ (Do : Transport) (m : Int) (e : String),
      attempt lib (scrollURL flags) Do m ≠ .fatal e) ∧
    List.Forall₂
      (fun Do s => ∀ e, fetch lib (scrollURL flags) Do = .failed e →
        s.err = some e ∧ logStep lib.Quote flags.quiet s.err = [.log (e.Error lib.Quote)])
      world (main lib flags world).steps ∧
    (∃ req, request lib (scrollURL flags) = .ok req ∧ ∀ Do : Transport,
      (∀ err, Do req = .error err →
        fetch lib (scrollURL flags) Do = .failed (.transport err)) ∧
      (∀ res err, Do req = .ok res → res.Body = .error err →
        fetch lib (scrollURL flags) Do = .failed (.readingBody err)) ∧
      (∀ res body, Do req = .ok res → res.Body = .ok body → res.StatusCode ≠ 200 →
        fetch lib (scrollURL flags) Do = .failed (.unexpectedStatus res.Status body)) ∧
      (∀ res body err, Do req = .ok res → res.Body = .ok body → res.StatusCode = 200 →
        lib.Unmarshal body = .error err →
        fetch lib (scrollURL flags) Do = .failed (.unmarshalling err body))) := by
  obtain ⟨req, hreq⟩ := request_of_contract hstart hlib
  rw [main_of_started hstart]
  obtain ⟨h1, h2, h3, h4⟩ := loop_running flags hreq world 0
  refine ⟨h1, h2, h3, ?_, ?_, req, hreq, fun Do => ⟨?_, ?_, ?_, ?_⟩⟩
  · intro Do m e hf
    obtain ⟨err, m1, ha⟩ := attempt_not_fatal hreq Do m
    rw [ha] at hf
    exact AttemptResult.noConfusion hf
  · refine h4.imp ?_
    intro Do s hs e he
    have := hs e he
    exact ⟨this, by rw [this]; rfl⟩
  · intro err hdo
    exact fetch_transport_error hreq hdo
  · intro res err hdo hb
    exact fetch_read_error hreq hdo hb
  · intro res body hdo hb hc
    exact fetch_non200 hreq hdo hb hc
  · intro res body err hdo hb hc hd
    exact fetch_decode_error hreq hdo hb hc hd

theorem loop_body_never_exits_witness :
    (main exampleLib exampleFlags
      [reply "500 Internal Server Error" 500 [], fun _ => .error "timeout", reply "200 OK" 200 [],
        replyCount 1]).exit = none ∧
    (main exampleLib exampleFlags
      [reply "500 Internal Server Error" 500 [], fun _ => .error "timeout", reply "200 OK" 200 [],
        replyCount 1]).steps.length = 4 :=
  ⟨(loop_body_never_exits exampleLib exampleFlags
      [reply "500 Internal Server Error" 500 [], fun _ => .error "timeout", reply "200 OK" 200 [],
        replyCount 1] started_example contract_example).1,
    (loop_body_never_exits exampleLib exampleFlags
      [reply "500 Internal Server Error" 500 [], fun _ => .error "timeout", reply "200 OK" 200 [],
        replyCount 1] started_example contract_example).2.1⟩

end FalconHosts
